import Mathlib

/-!
Shallow embedding of the workflow/state-machine core of the analytics
assistant repository (graphs/, nodes/, states/, services/).

External collaborators (LLM generation, SQL/chart validators, the query
executor, json.loads / json.dumps, pandas serialization) are modelled as
oracle function parameters, matching the spec's capability interfaces.
Python dicts threaded through LangGraph nodes are modelled as Lean
structures; a node returning `{**state, k: v}` becomes a functional
record update; a node that can raise returns `Except PyErr _`.
LangGraph's `graph.invoke` is modelled as a fuel-bounded runner over the
node/edge structure built in the corresponding `build_*_graph` function
(LangGraph's default recursion limit of 25 super-steps is the fuel).
-/

/-- Python exceptions that the modelled nodes can raise. -/
inductive PyErr where
  | unboundLocalError (var : String)
  | typeError (msg : String)
  | jsonDecodeError (msg : String)
  | runtimeError (msg : String)
  | indexError
  | keyError (key : String)
  deriving Repr, DecidableEq

/-- models/user_request_parser_model.py: `DataQuestion` (pydantic).
Only the fields the workflow core reads/writes are modelled; prompt-side
fields (time grain, filters, sort, chart hint, ...) are opaque to the
state machine and are absorbed into the generation oracles. -/
structure DataQuestion where
  original_text : String := ""
  metrics : List String := []
  dimensions : List String := []
  dataset : Option String := none
  chart_figure_json : Option String := none
  narrative : Option String := none
  deriving Repr, DecidableEq

/-- A parsed work item: parsing may emit `DataQuestion`s or
`AnalysisRequest`s (models/user_request_parser_model.py); the orchestrator
discriminates by class. -/
inductive ParsedItem where
  | dataQuestion (dq : DataQuestion)
  | analysisRequest (text : String)
  deriving Repr, DecidableEq

/-- models/user_request_parser_model.py: `AgentOutput` — ordered list of
parsed items (the free-text notes field is unused by the workflow core). -/
structure AgentOutput where
  questions : List ParsedItem := []
  deriving Repr, DecidableEq

/-- The Python isinstance check for DataQuestion on a parsed item. -/
def ParsedItem.isDataQuestion : ParsedItem → Bool
  | .dataQuestion _ => true
  | .analysisRequest _ => false

def ParsedItem.asDataQuestion : ParsedItem → Option DataQuestion
  | .dataQuestion dq => some dq
  | .analysisRequest _ => none

def ParsedItem.asAnalysisRequest : ParsedItem → Option String
  | .dataQuestion _ => none
  | .analysisRequest t => some t

/-- services/parsing_validation_service.py: `ParsingValidationService` —
the metric/dimension registries loaded from metrics.yaml. -/
structure ParsingValidationService where
  metrics : List String := []
  dimensions : List String := []

namespace ParsingValidationService

/-- The per-item message of the missing-fields check (source lines 41-45).
Apostrophes in the source text are written with escapes. -/
def missingFieldsMsg (fields : List String) (text : String) : String :=
  let fieldList := String.intercalate ", " fields
  s!"I\x27m sorry, but I was unable to determine a valid {fieldList} from your request: \x27{text}\x27. This means I could not identify a metric or dimension to analyze. Please try rephrasing your question to specify what data or breakdown you are interested in."

/-- The per-item message of the unknown-registry-name check (lines 59-64). -/
def invalidItemMsg
    (invalid_metrics invalid_dims : List String) (text : String) : String :=
  let base := s!"Sorry, I cannot process your request: \x27{text}\x27. "
  let ms := String.intercalate ", " invalid_metrics
  let ds := String.intercalate ", " invalid_dims
  let withM := if invalid_metrics.isEmpty then base else base ++ s!"Unknown metrics: {ms}. "
  let withD := if invalid_dims.isEmpty then withM else withM ++ s!"Unknown dimensions: {ds}. "
  withD ++ "Please check your query and try again."

/-- services/parsing_validation_service.py lines 17-67:
`validate_agent_output(agent_output) -> (is_valid, message)`. -/
def validate_agent_output (svc : ParsingValidationService)
    (agent_output : AgentOutput) : Bool × String :=
  let has_data_question := agent_output.questions.any ParsedItem.isDataQuestion
  if !has_data_question then
    (false, "Sorry, I could not find any valid DataQuestion in your request. Please rephrase your query.")
  else
    let missing_fields := agent_output.questions.filterMap fun q =>
      match q with
      | .dataQuestion dq =>
        if dq.metrics.isEmpty || dq.dimensions.isEmpty then
          let missing := (if dq.metrics.isEmpty then ["metric"] else []) ++
                         (if dq.dimensions.isEmpty then ["dimension"] else [])
          some (missing, dq.original_text)
        else none
      | .analysisRequest _ => none
    if !missing_fields.isEmpty then
      (false, String.intercalate "\n"
        (missing_fields.map fun p => missingFieldsMsg p.1 p.2))
    else
      let invalid_items := agent_output.questions.filterMap fun q =>
        match q with
        | .dataQuestion dq =>
          let invalid_metrics := dq.metrics.filter fun m => !svc.metrics.contains m
          let invalid_dims := dq.dimensions.filter fun d => !svc.dimensions.contains d
          if !invalid_metrics.isEmpty || !invalid_dims.isEmpty then
            some (invalid_metrics, invalid_dims, dq.original_text)
          else none
        | .analysisRequest _ => none
      if !invalid_items.isEmpty then
        (false, String.intercalate "\n"
          (invalid_items.map fun t => invalidItemMsg t.1 t.2.1 t.2.2))
      else
        (true, "Request is valid.")

end ParsingValidationService

/-! ## SQL extraction sub-workflow (data_extractor_graph.py and its nodes) -/

/-- The structured SQL validation error: both backends of
services/sql_validation_service.py return a dict with a "message" key
(`{"message": msg}` on the MCP path; `{"code": ..., "message": ...}` in
tools/postgres_validator_asyncpg.py). Only "message" is read downstream. -/
structure ErrDict where
  message : String
  deriving Repr, DecidableEq

/-- Opaque model of a pandas DataFrame returned by query execution; only
emptiness and an external serialization are observed by the core. -/
structure Frame where
  rows : List (List String) := []
  deriving Repr, DecidableEq

/-- states/data_extractor_state.py: `DataExtractorState` (TypedDict,
total=False — absent keys are `none`). The opaque `semantic` payload and
`data_question` are closed over by the generation oracle. -/
structure DataExtractorState where
  data_question : DataQuestion := {}
  sql : Option String := none
  is_valid : Option Bool := none
  validation_error : Option ErrDict := none
  validation_attempts : Option Nat := none
  df : Option Frame := none
  deriving Repr, DecidableEq

/-- nodes/sql_generate_node.py lines 10-31: builds an `SQLGenerationInput`
whose `previous_validation_error` is `state["validation_error"]["message"]`
when `validation_error` is set, else None, calls `gen.generate_sql`, and
returns `{**state, "sql": sql}`. The oracle `gen` stands for
`SQLGenerationService.generate_sql` applied to the payload (question
fields and semantic schema are fixed for the substage run). -/
def make_sql_generate_node (gen : Option String → String)
    (state : DataExtractorState) : DataExtractorState :=
  let previous_validation_error := state.validation_error.map ErrDict.message
  let sql := gen previous_validation_error
  { state with sql := some sql }

/-- nodes/sql_validate_node.py lines 8-25: runs the validator on
`state["sql"]`; on failure increments `state["validation_attempts"]`
(default 0) in place; returns `{**state, "is_valid": .., "validation_error": ..}`.
The oracle stands for `SQLValidationService.validate`. -/
def make_sql_validate_node (validator : String → Bool × Option ErrDict)
    (state : DataExtractorState) : DataExtractorState :=
  let r := validator (state.sql.getD "")
  let attempts :=
    if r.1 then state.validation_attempts
    else some (state.validation_attempts.getD 0 + 1)
  { state with is_valid := some r.1, validation_error := r.2,
               validation_attempts := attempts }

/-- Response of the MCP `sql.query` tool (utils/mcp_client_tcp.py
`aquery`): always a dict with optional "error" and "rows". -/
structure MCPQueryResp where
  error : Option String := none
  rows : List (List String) := []

/-- services/data_extraction_service.py lines 39-53 (MCP path):
`run_query` raises a RuntimeError carrying the MCP error text
when the response carries an error, else builds a DataFrame from the
rows. (The SQLAlchemy fallback path likewise lets driver exceptions
such as connectivity/statement errors propagate.) -/
def DataExtractionService.run_query (mcpQuery : String → MCPQueryResp)
    (sql : String) : Except PyErr Frame :=
  let resp := mcpQuery sql
  match resp.error with
  | some e => .error (.runtimeError s!"MCP query error: {e}")
  | none => .ok { rows := resp.rows }

/-- nodes/sql_extract_node.py lines 7-13: `df = extractor.run_query(state["sql"])`
with no exception handling; returns `{**state, "df": df}`. -/
def make_sql_extract_node (runQuery : String → Except PyErr Frame)
    (state : DataExtractorState) : Except PyErr DataExtractorState :=
  (runQuery (state.sql.getD "")).map fun df => { state with df := some df }

namespace DataExtractorGraph

/-- Routing targets of the conditional edge out of the validate node. -/
inductive Next where
  | extract_data
  | generate_sql
  | done
  deriving Repr, DecidableEq

/-- graphs/data_extractor_graph.py lines 28-36: the conditional-edge
router `is_valid(state)`. -/
def is_valid (state : DataExtractorState) : Next :=
  if state.is_valid.getD false then .extract_data
  else if 3 ≤ state.validation_attempts.getD 0 then .done
  else .generate_sql

/-- Node currently executing in the compiled graph. -/
inductive Node where
  | generate_sql_node
  | validate_sql_node
  | extract_data_node
  deriving Repr, DecidableEq

/-- Observable trace of external-capability invocations during one run:
the `previous_validation_error` received by each generation call, the
outcome of each validation call, and the number of query executions. -/
structure Trace where
  genPrevErrors : List (Option String) := []
  valResults : List Bool := []
  queryCalls : Nat := 0
  deriving Repr, DecidableEq

/-- Fuel-bounded execution of the compiled graph of
`build_data_extractor_graph` (entry `generate_sql_node`; edge
generate→validate; conditional edge out of validate via `is_valid`;
edge extract→END). Generation and validation oracles are indexed by
their call count, modelling a non-deterministic external capability.
`none` = fuel exhausted; `.error` = an uncaught Python exception
propagating out of `invoke`. -/
def run (gen : Nat → Option String → String)
    (validator : Nat → String → Bool × Option ErrDict)
    (runQuery : String → Except PyErr Frame) :
    Nat → Node → DataExtractorState → Trace →
    Option (Except PyErr (DataExtractorState × Trace))
  | 0, _, _, _ => none
  | fuel + 1, node, state, tr =>
    match node with
    | .generate_sql_node =>
      let prev := state.validation_error.map ErrDict.message
      let state' := make_sql_generate_node (gen tr.genPrevErrors.length) state
      run gen validator runQuery fuel .validate_sql_node state'
        { tr with genPrevErrors := tr.genPrevErrors ++ [prev] }
    | .validate_sql_node =>
      let state' := make_sql_validate_node (validator tr.valResults.length) state
      let tr' := { tr with valResults := tr.valResults ++ [state'.is_valid.getD false] }
      match is_valid state' with
      | .extract_data => run gen validator runQuery fuel .extract_data_node state' tr'
      | .generate_sql => run gen validator runQuery fuel .generate_sql_node state' tr'
      | .done => some (.ok (state', tr'))
    | .extract_data_node =>
      let tr' := { tr with queryCalls := tr.queryCalls + 1 }
      match make_sql_extract_node runQuery state with
      | .error e => some (.error e)
      | .ok state' => some (.ok (state', tr'))

/-- LangGraph default recursion limit: `invoke` raises after 25 super-steps. -/
def RECURSION_LIMIT : Nat := 25

/-- nodes/run_extractor_node.py line 41: the extractor sub-graph is
invoked on the fresh state `{"semantic": ..., "data_question": dq}`. -/
def invoke (gen : Nat → Option String → String)
    (validator : Nat → String → Bool × Option ErrDict)
    (runQuery : String → Except PyErr Frame) (dq : DataQuestion) :
    Option (Except PyErr (DataExtractorState × Trace)) :=
  run gen validator runQuery RECURSION_LIMIT .generate_sql_node
    { data_question := dq } {}

end DataExtractorGraph

/-! ## Charting sub-workflow (charting_graph.py and its nodes) -/

/-- Opaque model of a Plotly figure document held as a Python dict. -/
structure FigDict where
  entries : List (String × String) := []
  deriving Repr, DecidableEq

/-- Result of a successful `json.loads` on a chart-spec string: either a
dict (the case the validator understands) or some other JSON value. -/
inductive JsonVal where
  | dict (d : FigDict)
  | nonDict
  deriving Repr, DecidableEq

/-- A value of the `plotly_fig_json` state key: the render node stores the
`plotly_figure` member of the LLM response, which is either an embedded
dict or a JSON string (states/charting_state.py types it `Optional[str]`;
nodes branch on `isinstance(fig_json, dict)` at runtime). -/
inductive FigJson where
  | dict (d : FigDict)
  | str (s : String)
  deriving Repr, DecidableEq

/-- The LLM charting response after `json.loads` in the render node:
a dict read with `.get("plotly_figure", None)` and `.get("narrative", "")`. -/
structure ChartRespDict where
  plotly_figure : Option FigJson := none
  narrative : Option String := none
  deriving Repr, DecidableEq

/-- states/charting_state.py: `ChartingState` (TypedDict, total=False).
`validation_error` is typed `Optional[dict]` but the validate node stores
`str(e)`; it is modelled as the string actually stored. -/
structure ChartingState where
  data_question : Option DataQuestion := none
  is_valid : Option Bool := none
  validation_error : Option String := none
  validation_attempts : Option Nat := none
  plotly_fig_json : Option FigJson := none
  narrative : Option String := none
  deriving Repr, DecidableEq

/-- nodes/chart_render_node.py lines 12-42:
reads `data_question`; calls `service_llm.generate_chart(dq,
previous_validation_errors=state.get("validation_error", "None"))`;
`json.loads` the response and extracts `plotly_figure` and `narrative`.
Faithful to the source, the local variable `narrative` is assigned ONLY
on the successful-parse path: when `data_question` is missing, or when
`json.loads` raises `JSONDecodeError`, the `return` line references the
unassigned `narrative` and the node raises `UnboundLocalError`.
`generate_chart` is the LLM oracle (the dq and its dataset are fixed);
`loadsResp` models `json.loads` + the two `.get` reads on the response
(`none` = `json.JSONDecodeError`). -/
def make_render_chart_llm_node_no_validation
    (generate_chart : String → String)
    (loadsResp : String → Option ChartRespDict)
    (state : ChartingState) : Except PyErr ChartingState :=
  match state.data_question with
  | none => .error (.unboundLocalError "narrative")
  | some _ =>
    let previous_validation_errors := state.validation_error.getD "None"
    let resp := generate_chart previous_validation_errors
    match loadsResp resp with
    | none => .error (.unboundLocalError "narrative")
    | some resp_dict =>
      .ok { state with plotly_fig_json := resp_dict.plotly_figure,
                       narrative := some (resp_dict.narrative.getD "") }

/-- nodes/chart_validate_node.py lines 11-59:
the logging/persistence block (lines 18-41) is wrapped in
`try/except: pass` and has no effect on state, so it is omitted.
Line 42-43 sit OUTSIDE any try: when `plotly_fig_json` is not a dict it is
passed to `json.loads`, so `None` raises `TypeError` and a non-JSON string
raises `JSONDecodeError`, both uncaught. The `try` block around
`validator.validate_chart` converts a raised `ValueError` into
`is_valid=False`, stores `str(e)` and increments `validation_attempts`
in place; on success `is_valid=True`, `error=None`.
`validate_chart` is the oracle for `ChartingServiceLLM.validate_chart`
(returns normally iff valid, else the ValueError message); `jsonLoads`
models `json.loads` on a string (`none` = raises). -/
def make_chart_validate_node
    (validate_chart : JsonVal → Except String Unit)
    (jsonLoads : String → Option JsonVal)
    (state : ChartingState) : Except PyErr ChartingState :=
  let parsed : Except PyErr JsonVal :=
    match state.plotly_fig_json with
    | some (.dict d) => .ok (.dict d)
    | some (.str s) =>
      match jsonLoads s with
      | some v => .ok v
      | none => .error (.jsonDecodeError "Expecting value")
    | none => .error (.typeError "the JSON object must be str, bytes or bytearray, not NoneType")
  match parsed with
  | .error e => .error e
  | .ok fig_dict =>
    match validate_chart fig_dict with
    | .ok _ => .ok { state with is_valid := some true, validation_error := none }
    | .error e =>
      .ok { state with is_valid := some false, validation_error := some e,
                       validation_attempts := some (state.validation_attempts.getD 0 + 1) }

namespace ChartingGraph

/-- Routing targets of the conditional edge out of the validate node. -/
inductive Next where
  | done
  | render_charts
  deriving Repr, DecidableEq

/-- graphs/charting_graph.py lines 11-18: the conditional-edge router
`is_valid(state)`. -/
def is_valid (state : ChartingState) : Next :=
  if state.is_valid.getD false then .done
  else if 3 ≤ state.validation_attempts.getD 0 then .done
  else .render_charts

inductive Node where
  | render_charts
  | validate_charts
  deriving Repr, DecidableEq

/-- Observable trace: the `previous_validation_errors` string received by
each render (generation) call, and the number of validation calls. -/
structure Trace where
  renderPrevErrors : List String := []
  valCalls : Nat := 0
  deriving Repr, DecidableEq

/-- Fuel-bounded execution of the compiled graph of `build_charting_graph`
(entry `render_charts`; edge render→validate; conditional edge out of
validate via `is_valid`). Oracles indexed by call count. -/
def run (gen : Nat → String → String)
    (loadsResp : String → Option ChartRespDict)
    (validate_chart : Nat → JsonVal → Except String Unit)
    (jsonLoads : String → Option JsonVal) :
    Nat → Node → ChartingState → Trace →
    Option (Except PyErr (ChartingState × Trace))
  | 0, _, _, _ => none
  | fuel + 1, node, state, tr =>
    match node with
    | .render_charts =>
      let prev := state.validation_error.getD "None"
      match make_render_chart_llm_node_no_validation
          (gen tr.renderPrevErrors.length) loadsResp state with
      | .error e => some (.error e)
      | .ok state' =>
        run gen loadsResp validate_chart jsonLoads fuel .validate_charts state'
          { tr with renderPrevErrors := tr.renderPrevErrors ++ [prev] }
    | .validate_charts =>
      match make_chart_validate_node (validate_chart tr.valCalls) jsonLoads state with
      | .error e => some (.error e)
      | .ok state' =>
        let tr' := { tr with valCalls := tr.valCalls + 1 }
        match is_valid state' with
        | .done => some (.ok (state', tr'))
        | .render_charts =>
          run gen loadsResp validate_chart jsonLoads fuel .render_charts state' tr'

/-- nodes/run_render_chart_node.py line 15: the charting sub-graph is
invoked on the fresh state `{"data_question": dq}`. -/
def invoke (gen : Nat → String → String)
    (loadsResp : String → Option ChartRespDict)
    (validate_chart : Nat → JsonVal → Except String Unit)
    (jsonLoads : String → Option JsonVal) (dq : DataQuestion) :
    Option (Except PyErr (ChartingState × Trace)) :=
  run gen loadsResp validate_chart jsonLoads DataExtractorGraph.RECURSION_LIMIT
    .render_charts { data_question := some dq } {}

end ChartingGraph

/-! ## Orchestrator workflow (orchestrator_graph.py and its nodes) -/

/-- states/agentic_orchestrator_state.py: `AgenticOrchestratorState`
(TypedDict extending `UserRequestParserState`, total=False). The opaque
`semantic` payload is closed over by the generation oracles.
`current_idx` is absent until `init_loop_node` stores it and is only read
afterwards; it is modelled as a `Nat` defaulting to 0. -/
structure AgenticOrchestratorState where
  user_query : String := ""
  parsed : Option AgentOutput := none
  is_valid : Option Bool := none
  validation_message : Option String := none
  questions : List DataQuestion := []
  analysis_requests : List String := []
  current_idx : Nat := 0
  processed_questions : List DataQuestion := []
  data_question : Option DataQuestion := none
  df : Option Frame := none
  chart_figure_json : Option String := none
  progress_messages : List String := []
  deriving Repr, DecidableEq

/-- Result of `graph.invoke` on a nested sub-graph as observed by the
parent node: `none` (fuel exhausted) is LangGraph raising
`GraphRecursionError`, which propagates like any other exception. -/
def invokeResult : Option (Except PyErr α) → Except PyErr α
  | none => .error (.runtimeError "GraphRecursionError")
  | some r => r

/-- The parent node observes only the final state dict of a nested
`invoke`, not the instrumentation trace. -/
def invokeState (r : Option (Except PyErr (α × β))) : Except PyErr α :=
  invokeResult (r.map (Except.map Prod.fst))

/-- nodes/run_parsing_node.py lines 26-42 together with the parser
sub-graph it invokes (graphs/parser_graph.py: parse → parser_validation →
END; nodes/parser_node.py; nodes/parser_validation_node.py).
The parse node stores `parsed = parser.parse(user_query)`; the validation
node stores `validator.validate_agent_output(parsed)` as
`is_valid`/`validation_message`; the merged parser result is overlaid on
the orchestrator state and "Parsing completed." is appended to
`progress_messages`. `parse` is the LLM parsing oracle. -/
def run_parsing_node (parse : String → AgentOutput)
    (svc : ParsingValidationService)
    (state : AgenticOrchestratorState) : AgenticOrchestratorState :=
  let parsed := parse state.user_query
  let r := svc.validate_agent_output parsed
  { state with parsed := some parsed, is_valid := some r.1,
               validation_message := some r.2,
               progress_messages := state.progress_messages ++ ["Parsing completed."] }

/-- nodes/init_loop_node.py lines 8-14: partitions `state["parsed"].questions`
by class name into `DataQuestion`s and `AnalysisRequest`s, keeps the
former as the work queue, resets `current_idx` to 0 and
`processed_questions` to empty. `state["parsed"]` raises `KeyError` when
absent. -/
def init_loop_node (state : AgenticOrchestratorState) :
    Except PyErr AgenticOrchestratorState :=
  match state.parsed with
  | none => .error (.keyError "parsed")
  | some parsed =>
    let dqs := parsed.questions.filterMap ParsedItem.asDataQuestion
    let ars := parsed.questions.filterMap ParsedItem.asAnalysisRequest
    .ok { state with
          questions := dqs, analysis_requests := ars,
          current_idx := 0, processed_questions := [] }

/-- nodes/pick_next_question_node.py lines 6-14: selects
`state["questions"][state["current_idx"]]` (raising `IndexError` when out
of range), appends the two progress entries, and stores the current work
item. (Value-level model; the in-place aliasing of `progress_messages` is
modelled separately in the heap embedding below.) -/
def pick_next_question_node (state : AgenticOrchestratorState) :
    Except PyErr AgenticOrchestratorState :=
  let i := state.current_idx
  match state.questions[i]? with
  | none => .error .indexError
  | some dq =>
    let n := state.questions.length
    .ok { state with
          data_question := some dq,
          progress_messages := state.progress_messages ++
            [s!"Processing question {i+1} of {n}.",
             s!"Extracting data for question {i+1} of {n}."] }

/-- nodes/run_extractor_node.py lines 27-37: `dq_dataset_to_str` returns
"[]" for a missing or empty DataFrame, else the pandas JSON
serialization (modelled by the oracle `ser`, which includes
`df_dates_to_str`). -/
def dq_dataset_to_str (ser : Frame → String) (dq_dataset : Option Frame) : String :=
  match dq_dataset with
  | none => "[]"
  | some f => if f.rows.isEmpty then "[]" else ser f

/-- nodes/run_extractor_node.py lines 39-57: invokes the extractor
sub-graph on `{"semantic": ..., "data_question": dq}` with NO exception
handling — any exception from the sub-graph propagates. On return it
appends two progress entries, serializes the extracted DataFrame onto
`dq.dataset`, and stores `df`, the updated work item and the messages. -/
def run_extractor_node
    (extractorInvoke : DataQuestion → Except PyErr DataExtractorState)
    (ser : Frame → String)
    (state : AgenticOrchestratorState) : Except PyErr AgenticOrchestratorState :=
  match state.data_question with
  | none => .error (.keyError "data_question")
  | some dq =>
    match extractorInvoke dq with
    | .error e => .error e
    | .ok out =>
      let df := out.df
      let q1 := state.current_idx + 1
      let progress := state.progress_messages ++
        [s!"Data Extraction completed for question {q1}.",
         s!"Rendering chart for question {q1}..."]
      let dq_dataset_str := dq_dataset_to_str ser df
      let dq' := { dq with dataset := some dq_dataset_str }
      .ok { state with
            df := df, data_question := some dq',
            progress_messages := progress }

/-- nodes/run_render_chart_node.py lines 13-41: invokes the charting
sub-graph on `{"data_question": dq}` with NO exception handling. On
return: a dict figure is `json.dumps`-ed (oracle `dumps`); the work item
gets `chart_figure_json = fig_json if is_valid else None` and
`narrative = out.get("narrative", "")`; one progress entry is appended
according to validity. -/
def run_render_chart_node
    (chartInvoke : DataQuestion → Except PyErr ChartingState)
    (dumps : FigDict → String)
    (state : AgenticOrchestratorState) : Except PyErr AgenticOrchestratorState :=
  match state.data_question with
  | none => .error (.keyError "data_question")
  | some dq =>
    match chartInvoke dq with
    | .error e => .error e
    | .ok out =>
      let fig_json : Option String :=
        match out.plotly_fig_json with
        | some (.dict d) => some (dumps d)
        | some (.str s) => some s
        | none => none
      let is_valid := out.is_valid
      let narrative := out.narrative.getD ""
      let dq' := { dq with
        chart_figure_json := if is_valid.getD false then fig_json else none,
        narrative := some narrative }
      let progress := state.progress_messages ++
        [if is_valid.getD false then "Chart rendered successfully."
         else "Chart rendering failed."]
      .ok { state with
            chart_figure_json := fig_json, data_question := some dq',
            progress_messages := progress }

/-- nodes/accumulate_and_advance_node.py lines 7-12: copies
`processed_questions` (`list(...)`), appends `state["data_question"]`
(raising `KeyError` when absent), increments `current_idx`. -/
def accumulate_and_advance_node (state : AgenticOrchestratorState) :
    Except PyErr AgenticOrchestratorState :=
  match state.data_question with
  | none => .error (.keyError "data_question")
  | some dq =>
    .ok { state with
          processed_questions := state.processed_questions ++ [dq],
          current_idx := state.current_idx + 1 }

namespace OrchestratorGraph

/-- Routing targets of the conditional edge out of `accumulate`. -/
inductive HasMore where
  | pick_next
  | done
  deriving Repr, DecidableEq

/-- graphs/orchestrator_graph.py lines 11-12: the loop condition
`has_more(state)`. -/
def has_more (state : AgenticOrchestratorState) : HasMore :=
  if state.current_idx < state.questions.length then .pick_next else .done

inductive Node where
  | run_parsing
  | init_loop
  | pick_next
  | run_extractor
  | run_render_chart
  | accumulate
  deriving Repr, DecidableEq

/-- Observable trace: how many times the PickNext→…→Accumulate cycle was
entered (counted at `pick_next`). -/
structure Trace where
  cycles : Nat := 0
  deriving Repr, DecidableEq

/-- Fuel-bounded execution of the compiled graph of
`build_orchestrator_graph` (entry `run_parsing`; conditional edge
run_parsing→{init_loop, END} on `state.get("is_valid", False)`; chain
init_loop→pick_next→run_extractor→run_render_chart→accumulate;
conditional edge out of accumulate via `has_more`). The fuel models the
configured LangGraph step budget (recursion limit). -/
def run (parse : String → AgentOutput) (svc : ParsingValidationService)
    (extractorInvoke : DataQuestion → Except PyErr DataExtractorState)
    (chartInvoke : DataQuestion → Except PyErr ChartingState)
    (ser : Frame → String) (dumps : FigDict → String) :
    Nat → Node → AgenticOrchestratorState → Trace →
    Option (Except PyErr (AgenticOrchestratorState × Trace))
  | 0, _, _, _ => none
  | fuel + 1, node, state, tr =>
    match node with
    | .run_parsing =>
      let state' := run_parsing_node parse svc state
      if state'.is_valid.getD false then
        run parse svc extractorInvoke chartInvoke ser dumps fuel .init_loop state' tr
      else some (.ok (state', tr))
    | .init_loop =>
      match init_loop_node state with
      | .error e => some (.error e)
      | .ok state' =>
        run parse svc extractorInvoke chartInvoke ser dumps fuel .pick_next state' tr
    | .pick_next =>
      match pick_next_question_node state with
      | .error e => some (.error e)
      | .ok state' =>
        run parse svc extractorInvoke chartInvoke ser dumps fuel .run_extractor state'
          { tr with cycles := tr.cycles + 1 }
    | .run_extractor =>
      match run_extractor_node extractorInvoke ser state with
      | .error e => some (.error e)
      | .ok state' =>
        run parse svc extractorInvoke chartInvoke ser dumps fuel .run_render_chart state' tr
    | .run_render_chart =>
      match run_render_chart_node chartInvoke dumps state with
      | .error e => some (.error e)
      | .ok state' =>
        run parse svc extractorInvoke chartInvoke ser dumps fuel .accumulate state' tr
    | .accumulate =>
      match accumulate_and_advance_node state with
      | .error e => some (.error e)
      | .ok state' =>
        match has_more state' with
        | .done => some (.ok (state', tr))
        | .pick_next =>
          run parse svc extractorInvoke chartInvoke ser dumps fuel .pick_next state' tr

end OrchestratorGraph

/-! ## Heap embedding of shared-list handling (frame claims)

The functional models above capture value-level behavior. Whether a stage
mutates a shared Python list IN PLACE is an aliasing fact, modelled here
with an explicit store: list objects live in a heap and states hold
references (indices). `state.get(key, [])` yields the referenced object
itself when the key is present (a fresh object otherwise); `lst.append`
mutates the referenced cell; `list(lst)` allocates a copy. -/

/-- A store of Python `list[str]` objects. -/
abbrev StrListHeap : Type := List (List String)

/-- A store of Python `list[DataQuestion]` objects. -/
abbrev DqListHeap : Type := List (List DataQuestion)

/-- nodes/pick_next_question_node.py lines 9-11 at the heap level:
`progress = state.get("progress_messages", [])` followed by two
`progress.append(...)` calls, and the update stores `progress` back.
Returns the heap after the stage and the reference placed in the update.
When the key is present (`some r`), `progress` IS the state's list object
and both appends mutate cell `r`; when absent, a fresh list is allocated. -/
def pick_next_progress_heap (h : StrListHeap) (progressRef : Option Nat)
    (i n : Nat) : StrListHeap × Nat :=
  let m1 := s!"Processing question {i+1} of {n}."
  let m2 := s!"Extracting data for question {i+1} of {n}."
  match progressRef with
  | some r => (h.set r ((h.getD r []) ++ [m1, m2]), r)
  | none => (h ++ [[m1, m2]], h.length)

/-- nodes/run_parsing_node.py lines 34-36 at the heap level:
`progress = state.get("progress_messages", [])` then
`progress.append("Parsing completed.")`, stored back in the update. -/
def run_parsing_progress_heap (h : StrListHeap) (progressRef : Option Nat) :
    StrListHeap × Nat :=
  match progressRef with
  | some r => (h.set r ((h.getD r []) ++ ["Parsing completed."]), r)
  | none => (h ++ [["Parsing completed."]], h.length)

/-- nodes/accumulate_and_advance_node.py lines 8-9 at the heap level:
`processed = list(state.get("processed_questions", []))` allocates a NEW
list object (a shallow copy); the append mutates only the copy, and the
update stores the fresh reference. -/
def accumulate_processed_heap (h : DqListHeap) (processedRef : Option Nat)
    (dq : DataQuestion) : DqListHeap × Nat :=
  let cur := match processedRef with
    | some r => h.getD r []
    | none => []
  (h ++ [cur ++ [dq]], h.length)

/-! ## Theorems -/

/-- Auxiliary oracles used by witness theorems. -/
def wGen : Nat → Option String → String := fun n _ => s!"sql{n}"

def wValFail : Nat → String → Bool × Option ErrDict :=
  fun n _ => (false, some ⟨s!"err{n}"⟩)

def wRunQ : String → Except PyErr Frame := fun _ => .ok {}

def wCGen : Nat → String → String := fun n _ => s!"resp{n}"

def wLoads : String → Option ChartRespDict := fun s =>
  some { plotly_figure := some (.dict ⟨[("fig", s)]⟩), narrative := some s!"narr-{s}" }

def wFigOf : Nat → FigDict := fun n => ⟨[("fig", wCGen n "")]⟩

def wRespOf : Nat → ChartRespDict := fun n => (wLoads (wCGen n "")).getD {}

def wCValFail : Nat → JsonVal → Except String Unit := fun n _ => .error s!"bad{n}"

def wJsonLoads : String → Option JsonVal := fun _ => none

/-- C1: in both the SQL and the chart substage, if the validator fails
every attempt then the generation capability is invoked exactly 3 times
(the trace of generation calls has length 3 — so no 4th invocation
occurs), the run terminates (reaches END, here `some (.ok ...)`) with an
invalid result, and — for SQL — the query is never executed. The chart
hypotheses say each generation response parses to a dict figure, so that
every attempt actually reaches the validator. -/
theorem c1_retry_bound
    (gen : Nat → Option String → String)
    (validator : Nat → String → Bool × Option ErrDict)
    (runQuery : String → Except PyErr Frame) (dq : DataQuestion)
    (cgen : Nat → String → String) (loadsResp : String → Option ChartRespDict)
    (cval : Nat → JsonVal → Except String Unit)
    (jsonLoads : String → Option JsonVal)
    (respOf : Nat → ChartRespDict) (figOf : Nat → FigDict) (errOf : Nat → String)
    (cdq : DataQuestion)
    (hval : ∀ n s, (validator n s).1 = false)
    (hloads : ∀ n prev, loadsResp (cgen n prev) = some (respOf n))
    (hfig : ∀ n, (respOf n).plotly_figure = some (.dict (figOf n)))
    (hcval : ∀ n v, cval n v = .error (errOf n)) :
    (∃ s tr, DataExtractorGraph.invoke gen validator runQuery dq =
        some (.ok (s, tr)) ∧
      tr.genPrevErrors.length = 3 ∧ s.is_valid = some false ∧ tr.queryCalls = 0) ∧
    (∃ s tr, ChartingGraph.invoke cgen loadsResp cval jsonLoads cdq =
        some (.ok (s, tr)) ∧
      tr.renderPrevErrors.length = 3 ∧ s.is_valid = some false) := by
  constructor
  · simp only [DataExtractorGraph.invoke, DataExtractorGraph.RECURSION_LIMIT,
      DataExtractorGraph.run, make_sql_generate_node, make_sql_validate_node,
      DataExtractorGraph.is_valid, hval]
    simp only [Option.getD_some, Option.getD_none, List.length_nil, List.length_append,
      List.length_cons, if_false, Bool.false_eq_true, reduceIte, Nat.reduceAdd, Nat.reduceLeDiff]
    exact Exists.intro _ (Exists.intro _ (And.intro rfl (And.intro rfl (And.intro rfl rfl))))
  · simp only [ChartingGraph.invoke, DataExtractorGraph.RECURSION_LIMIT,
      ChartingGraph.run, make_render_chart_llm_node_no_validation,
      make_chart_validate_node, ChartingGraph.is_valid, hloads, hfig, hcval]
    simp only [Option.getD_some, Option.getD_none, List.length_nil, List.length_append,
      List.length_cons, if_false, Bool.false_eq_true, reduceIte, Nat.reduceAdd, Nat.reduceLeDiff]
    exact Exists.intro _ (Exists.intro _ (And.intro rfl (And.intro rfl rfl)))

/-- Witness for C1 at concrete oracles. -/
theorem c1_retry_bound_witness :
    (∃ s tr, DataExtractorGraph.invoke wGen wValFail wRunQ {} =
        some (.ok (s, tr)) ∧
      tr.genPrevErrors.length = 3 ∧ s.is_valid = some false ∧ tr.queryCalls = 0) ∧
    (∃ s tr, ChartingGraph.invoke wCGen wLoads wCValFail wJsonLoads {} =
        some (.ok (s, tr)) ∧
      tr.renderPrevErrors.length = 3 ∧ s.is_valid = some false) :=
  c1_retry_bound wGen wValFail wRunQ {} wCGen wLoads wCValFail wJsonLoads
    wRespOf wFigOf (fun n => s!"bad{n}") {}
    (fun _ _ => rfl) (fun _ _ => rfl) (fun _ => rfl) (fun _ _ => rfl)

/-- C7: on every Validate→Generate retry edge, the validation error of the
failed attempt is threaded into the next generation call. SQL scenario
(spec): the validator rejects attempts 1 and 2 with messages `m1`, `m2`
and approves attempt 3 — generation is called exactly 3 times receiving
previous errors [none, m1, m2], the final SQL is the 3rd call's output,
and the query executes exactly once. Chart side: with an always-rejecting
validator producing `errOf n` on attempt n+1, the three render calls
receive exactly ["None", errOf 0, errOf 1]. -/
theorem c7_error_feedback_threading
    (gen : Nat → Option String → String)
    (validator : Nat → String → Bool × Option ErrDict)
    (runQuery : String → Except PyErr Frame) (dq : DataQuestion)
    (m1 m2 : String) (f : Frame)
    (cgen : Nat → String → String) (loadsResp : String → Option ChartRespDict)
    (cval : Nat → JsonVal → Except String Unit)
    (jsonLoads : String → Option JsonVal)
    (respOf : Nat → ChartRespDict) (figOf : Nat → FigDict) (errOf : Nat → String)
    (cdq : DataQuestion)
    (hv0 : ∀ q, validator 0 q = (false, some ⟨m1⟩))
    (hv1 : ∀ q, validator 1 q = (false, some ⟨m2⟩))
    (hv2 : ∀ q, validator 2 q = (true, none))
    (hq : ∀ q, runQuery q = .ok f)
    (hloads : ∀ n prev, loadsResp (cgen n prev) = some (respOf n))
    (hfig : ∀ n, (respOf n).plotly_figure = some (.dict (figOf n)))
    (hcval : ∀ n v, cval n v = .error (errOf n)) :
    (∃ s tr, DataExtractorGraph.invoke gen validator runQuery dq =
        some (.ok (s, tr)) ∧
      tr.genPrevErrors = [none, some m1, some m2] ∧
      s.sql = some (gen 2 (some m2)) ∧
      tr.queryCalls = 1 ∧ s.df = some f) ∧
    (∃ s tr, ChartingGraph.invoke cgen loadsResp cval jsonLoads cdq =
        some (.ok (s, tr)) ∧
      tr.renderPrevErrors = ["None", errOf 0, errOf 1]) := by
  constructor
  · simp only [DataExtractorGraph.invoke, DataExtractorGraph.RECURSION_LIMIT,
      DataExtractorGraph.run, make_sql_generate_node, make_sql_validate_node,
      make_sql_extract_node, DataExtractorGraph.is_valid, hv0, hv1, hv2, hq,
      Option.getD_some, Option.getD_none, Option.map_some, Option.map_none,
      List.length_nil, List.length_append, List.length_cons, Bool.false_eq_true,
      reduceIte, Nat.reduceAdd, Nat.reduceLeDiff, Except.map]
    exact Exists.intro _ (Exists.intro _
      (And.intro rfl (And.intro rfl (And.intro rfl (And.intro rfl rfl)))))
  · simp only [ChartingGraph.invoke, DataExtractorGraph.RECURSION_LIMIT,
      ChartingGraph.run, make_render_chart_llm_node_no_validation,
      make_chart_validate_node, ChartingGraph.is_valid, hloads, hfig, hcval]
    simp only [Option.getD_some, Option.getD_none, List.length_nil, List.length_append,
      List.length_cons, Bool.false_eq_true, reduceIte, Nat.reduceAdd, Nat.reduceLeDiff]
    exact Exists.intro _ (Exists.intro _ (And.intro rfl rfl))

/-- Witness oracles for the reject-reject-accept SQL validator. -/
def wValSeq : Nat → String → Bool × Option ErrDict := fun n _ =>
  if n = 0 then (false, some ⟨"m1"⟩)
  else if n = 1 then (false, some ⟨"m2"⟩)
  else (true, none)

/-- Witness for C7 at concrete oracles. -/
theorem c7_error_feedback_threading_witness :
    (∃ s tr, DataExtractorGraph.invoke wGen wValSeq wRunQ {} =
        some (.ok (s, tr)) ∧
      tr.genPrevErrors = [none, some "m1", some "m2"] ∧
      s.sql = some (wGen 2 (some "m2")) ∧
      tr.queryCalls = 1 ∧ s.df = some {}) ∧
    (∃ s tr, ChartingGraph.invoke wCGen wLoads wCValFail wJsonLoads {} =
        some (.ok (s, tr)) ∧
      tr.renderPrevErrors = ["None", s!"bad{0}", s!"bad{1}"]) :=
  c7_error_feedback_threading wGen wValSeq wRunQ {} "m1" "m2" {}
    wCGen wLoads wCValFail wJsonLoads wRespOf wFigOf (fun n => s!"bad{n}") {}
    (fun _ => rfl) (fun _ => rfl) (fun _ => rfl) (fun _ => rfl)
    (fun _ _ => rfl) (fun _ => rfl) (fun _ _ => rfl)

/-- C5: when the chart validator rejects all 3 attempts (each render
response parsing to a dict figure, so every attempt reaches the
validator), the charting sub-workflow terminates invalid, and the
orchestrator's RunRenderChart + Accumulate steps attach to the work item
a `none` chart specification together with the narrative of the 3rd
(last) generation response — the accumulated work item carries exactly
that narrative, not `none`. -/
theorem c5_chart_exhausted_narrative
    (cgen : Nat → String → String) (loadsResp : String → Option ChartRespDict)
    (cval : Nat → JsonVal → Except String Unit)
    (jsonLoads : String → Option JsonVal)
    (respOf : Nat → ChartRespDict) (figOf : Nat → FigDict) (errOf : Nat → String)
    (dumps : FigDict → String)
    (s : AgenticOrchestratorState) (dq : DataQuestion)
    (hloads : ∀ n prev, loadsResp (cgen n prev) = some (respOf n))
    (hfig : ∀ n, (respOf n).plotly_figure = some (.dict (figOf n)))
    (hcval : ∀ n v, cval n v = .error (errOf n))
    (hdq : s.data_question = some dq) :
    ∃ s' s'', run_render_chart_node
        (fun q => invokeState (ChartingGraph.invoke cgen loadsResp cval jsonLoads q))
        dumps s = .ok s' ∧
      accumulate_and_advance_node s' = .ok s'' ∧
      s''.processed_questions = s.processed_questions ++
        [{ dq with
           chart_figure_json := none,
           narrative := some ((respOf 2).narrative.getD "") }] := by
  have hinv : ChartingGraph.invoke cgen loadsResp cval jsonLoads dq =
      some (.ok ({ data_question := some dq, is_valid := some false,
                   validation_error := some (errOf 2),
                   validation_attempts := some 3,
                   plotly_fig_json := some (.dict (figOf 2)),
                   narrative := some ((respOf 2).narrative.getD "") },
                 { renderPrevErrors := ["None", errOf 0, errOf 1], valCalls := 3 })) := by
    simp only [ChartingGraph.invoke, DataExtractorGraph.RECURSION_LIMIT,
      ChartingGraph.run, make_render_chart_llm_node_no_validation,
      make_chart_validate_node, ChartingGraph.is_valid, hloads, hfig, hcval,
      Option.getD_some, Option.getD_none, List.length_nil, List.length_append,
      List.length_cons, Bool.false_eq_true, reduceIte, Nat.reduceAdd, Nat.reduceLeDiff]
    rfl
  simp only [run_render_chart_node, accumulate_and_advance_node, hdq, hinv,
    invokeState, invokeResult, Option.map_some, Except.map, Option.getD_some,
    Bool.false_eq_true, reduceIte]
  exact Exists.intro _ (Exists.intro _ (And.intro rfl (And.intro rfl rfl)))

/-- Witness for C5 at concrete oracles. -/
theorem c5_chart_exhausted_narrative_witness :
    ∃ s' s'', run_render_chart_node
        (fun q => invokeState (ChartingGraph.invoke wCGen wLoads wCValFail wJsonLoads q))
        (fun _ => "dumped") { data_question := some {} } = .ok s' ∧
      accumulate_and_advance_node s' = .ok s'' ∧
      s''.processed_questions = ([] : List DataQuestion) ++
        [{ ({} : DataQuestion) with
           chart_figure_json := none,
           narrative := some ((wRespOf 2).narrative.getD "") }] :=
  c5_chart_exhausted_narrative wCGen wLoads wCValFail wJsonLoads wRespOf wFigOf
    (fun n => s!"bad{n}") (fun _ => "dumped") { data_question := some {} } {}
    (fun _ _ => rfl) (fun _ => rfl) (fun _ _ => rfl) rfl

/-- Helper for C2: one PickNext→RunExtractor→RunRenderChart→Accumulate
cycle that routes back to PickNext consumes exactly 4 fuel, increments
the cycle count and `current_idx` by one, and leaves the queue untouched. -/
theorem orch_cycle_unfold
    (parse : String → AgentOutput) (svc : ParsingValidationService)
    (extractorInvoke : DataQuestion → Except PyErr DataExtractorState)
    (chartInvoke : DataQuestion → Except PyErr ChartingState)
    (ser : Frame → String) (dumps : FigDict → String)
    (m : Nat) (s : AgenticOrchestratorState) (tr : OrchestratorGraph.Trace)
    (hext : ∀ dq, ∃ out, extractorInvoke dq = .ok out)
    (hch : ∀ dq, ∃ out, chartInvoke dq = .ok out)
    (hidx : s.current_idx < s.questions.length)
    (hmore : s.current_idx + 1 < s.questions.length) :
    ∃ s₁, OrchestratorGraph.run parse svc extractorInvoke chartInvoke ser dumps
        (m + 4) .pick_next s tr =
      OrchestratorGraph.run parse svc extractorInvoke chartInvoke ser dumps
        m .pick_next s₁ { cycles := tr.cycles + 1 } ∧
      s₁.current_idx = s.current_idx + 1 ∧ s₁.questions = s.questions := by
  obtain ⟨dq, hdq⟩ : ∃ dq, s.questions[s.current_idx]? = some dq :=
    ⟨_, List.getElem?_eq_getElem hidx⟩
  obtain ⟨eout, hextdq⟩ := hext dq
  obtain ⟨cout, hchdq⟩ :=
    hch { dq with dataset := some (dq_dataset_to_str ser eout.df) }
  simp only [OrchestratorGraph.run, pick_next_question_node, run_extractor_node,
    run_render_chart_node, accumulate_and_advance_node, OrchestratorGraph.has_more,
    hdq, hextdq, hchdq]
  rw [if_pos hmore]
  refine ⟨_, rfl, ?_, ?_⟩
  · show s.current_idx + 1 = s.current_idx + 1
    rfl
  · rfl

/-- Helper for C2: starting at PickNext with `k + 1` questions remaining
and both nested sub-workflow invokes total (returning some final state —
i.e. each question's substages either succeed or exhaust their retries,
but do not crash), the loop runs exactly `k + 1` more
PickNext→…→Accumulate cycles, finishes with `current_idx` equal to the
queue length, and leaves the queue itself untouched. -/
theorem orch_loop_runs_to_completion
    (parse : String → AgentOutput) (svc : ParsingValidationService)
    (extractorInvoke : DataQuestion → Except PyErr DataExtractorState)
    (chartInvoke : DataQuestion → Except PyErr ChartingState)
    (ser : Frame → String) (dumps : FigDict → String)
    (hext : ∀ dq, ∃ out, extractorInvoke dq = .ok out)
    (hch : ∀ dq, ∃ out, chartInvoke dq = .ok out) :
    ∀ (k : Nat) (s : AgenticOrchestratorState) (tr : OrchestratorGraph.Trace),
      s.current_idx + (k + 1) = s.questions.length →
      ∃ s' tr', OrchestratorGraph.run parse svc extractorInvoke chartInvoke ser dumps
          (k * 4 + 4) .pick_next s tr = some (.ok (s', tr')) ∧
        s'.current_idx = s.questions.length ∧
        s'.questions = s.questions ∧
        tr'.cycles = tr.cycles + (k + 1) := by
  intro k
  induction k with
  | zero =>
    intro s tr hlen
    have hidx : s.current_idx < s.questions.length := by omega
    obtain ⟨dq, hdq⟩ : ∃ dq, s.questions[s.current_idx]? = some dq :=
      ⟨_, List.getElem?_eq_getElem hidx⟩
    obtain ⟨eout, hextdq⟩ := hext dq
    obtain ⟨cout, hchdq⟩ :=
      hch { dq with dataset := some (dq_dataset_to_str ser eout.df) }
    have hstop : ¬ (s.current_idx + 1 < s.questions.length) := by omega
    simp only [OrchestratorGraph.run, pick_next_question_node, run_extractor_node,
      run_render_chart_node, accumulate_and_advance_node, OrchestratorGraph.has_more,
      hdq, hextdq, hchdq]
    rw [if_neg hstop]
    refine ⟨_, _, rfl, ?_, ?_, ?_⟩
    · show s.current_idx + 1 = s.questions.length
      omega
    · rfl
    · rfl
  | succ k ih =>
    intro s tr hlen
    have hidx : s.current_idx < s.questions.length := by omega
    obtain ⟨dq, hdq⟩ : ∃ dq, s.questions[s.current_idx]? = some dq :=
      ⟨_, List.getElem?_eq_getElem hidx⟩
    obtain ⟨eout, hextdq⟩ := hext dq
    obtain ⟨cout, hchdq⟩ :=
      hch { dq with dataset := some (dq_dataset_to_str ser eout.df) }
    have hmore : s.current_idx + 1 < s.questions.length := by omega
    rw [show (k + 1) * 4 + 4 = k * 4 + 4 + 4 from by ring]
    obtain ⟨s₁, hstep, h1, h2⟩ := orch_cycle_unfold parse svc extractorInvoke
      chartInvoke ser dumps (k * 4 + 4) s tr hext hch hidx hmore
    rw [hstep]
    obtain ⟨s', tr', hrun, hidx', hq', hcy⟩ := ih s₁ { cycles := tr.cycles + 1 }
      (by rw [h1, h2]; omega)
    refine ⟨s', tr', hrun, ?_, ?_, ?_⟩
    · rw [hidx', h2]
    · rw [hq', h2]
    · rw [hcy]
      show tr.cycles + 1 + (k + 1) = tr.cycles + (k + 1 + 1)
      omega

/-- C2: for a work queue fixed at InitLoop of length N > 0 (the parse
gate guarantees at least one data question whenever InitLoop is reached,
cf. the parsing-validation theorems), the orchestrator executes the
PickNext→…→Accumulate cycle exactly N times and terminates with
`current_idx = N` — regardless of the outcomes of the per-question SQL
and chart sub-workflows, which are arbitrary invokes that return
(succeed or exhaust retries without crashing). -/
theorem c2_loop_termination
    (parse : String → AgentOutput) (svc : ParsingValidationService)
    (extractorInvoke : DataQuestion → Except PyErr DataExtractorState)
    (chartInvoke : DataQuestion → Except PyErr ChartingState)
    (ser : Frame → String) (dumps : FigDict → String)
    (s : AgenticOrchestratorState) (tr : OrchestratorGraph.Trace)
    (po : AgentOutput) (N : Nat)
    (hext : ∀ dq, ∃ out, extractorInvoke dq = .ok out)
    (hch : ∀ dq, ∃ out, chartInvoke dq = .ok out)
    (hparsed : s.parsed = some po)
    (hN : N = (po.questions.filterMap ParsedItem.asDataQuestion).length)
    (hNpos : 0 < N) :
    ∃ s' tr', OrchestratorGraph.run parse svc extractorInvoke chartInvoke ser dumps
        (N * 4 + 1) .init_loop s tr = some (.ok (s', tr')) ∧
      s'.current_idx = N ∧ s'.questions.length = N ∧
      tr'.cycles = tr.cycles + N := by
  simp only [OrchestratorGraph.run, init_loop_node, hparsed]
  rw [show N * 4 = (N - 1) * 4 + 4 from by omega]
  obtain ⟨s', tr', hrun, h1, h2, h3⟩ :=
    orch_loop_runs_to_completion parse svc extractorInvoke chartInvoke ser dumps
      hext hch (N - 1)
      { s with
        parsed := some po,
        questions := po.questions.filterMap ParsedItem.asDataQuestion,
        analysis_requests := po.questions.filterMap ParsedItem.asAnalysisRequest,
        current_idx := 0, processed_questions := [] } tr
      (by show 0 + (N - 1 + 1) =
            (po.questions.filterMap ParsedItem.asDataQuestion).length
          omega)
  refine ⟨s', tr', hrun, ?_, ?_, ?_⟩
  · rw [h1]
    show (po.questions.filterMap ParsedItem.asDataQuestion).length = N
    omega
  · rw [h2]
    show (po.questions.filterMap ParsedItem.asDataQuestion).length = N
    omega
  · rw [h3]
    omega

/-- Witness for C2: a two-question queue with trivial sub-workflow invokes. -/
theorem c2_loop_termination_witness :
    ∃ s' tr', OrchestratorGraph.run (fun _ => {}) {} (fun _ => .ok {})
        (fun _ => .ok {}) (fun _ => "[]") (fun _ => "{}")
        (2 * 4 + 1) .init_loop
        { parsed := some { questions := [.dataQuestion {},
            .dataQuestion { original_text := "b" }] } } {} =
      some (.ok (s', tr')) ∧
      s'.current_idx = 2 ∧ s'.questions.length = 2 ∧ tr'.cycles = 0 + 2 :=
  c2_loop_termination (fun _ => {}) {} (fun _ => .ok {}) (fun _ => .ok {})
    (fun _ => "[]") (fun _ => "{}")
    { parsed := some { questions := [.dataQuestion {},
        .dataQuestion { original_text := "b" }] } } {}
    { questions := [.dataQuestion {}, .dataQuestion { original_text := "b" }] } 2
    (fun _ => ⟨{}, rfl⟩) (fun _ => ⟨{}, rfl⟩) rfl rfl (by decide)

/-- C6: when the parsed output contains no data-kind work item, parse
validation returns `ok = false` with the user-facing no-DataQuestion
message, and the orchestrator run terminates right after RunParsing —
one super-step of fuel suffices, the per-question loop is never entered
(cycle count unchanged) and `processed_questions` is untouched (so it
stays empty when it started empty, as in a fresh run). -/
theorem c6_empty_parse_terminates
    (parse : String → AgentOutput) (svc : ParsingValidationService)
    (extractorInvoke : DataQuestion → Except PyErr DataExtractorState)
    (chartInvoke : DataQuestion → Except PyErr ChartingState)
    (ser : Frame → String) (dumps : FigDict → String)
    (s : AgenticOrchestratorState) (tr : OrchestratorGraph.Trace)
    (hzero : ∀ q ∈ (parse s.user_query).questions, q.isDataQuestion = false) :
    svc.validate_agent_output (parse s.user_query) =
      (false, "Sorry, I could not find any valid DataQuestion in your request. Please rephrase your query.") ∧
    ∃ s', OrchestratorGraph.run parse svc extractorInvoke chartInvoke ser dumps
        1 .run_parsing s tr = some (.ok (s', tr)) ∧
      s'.is_valid = some false ∧
      s'.validation_message =
        some "Sorry, I could not find any valid DataQuestion in your request. Please rephrase your query." ∧
      s'.processed_questions = s.processed_questions := by
  have hany : (parse s.user_query).questions.any ParsedItem.isDataQuestion = false := by
    rw [List.any_eq_false]
    intro q hq
    simp [hzero q hq]
  have hval : svc.validate_agent_output (parse s.user_query) =
      (false, "Sorry, I could not find any valid DataQuestion in your request. Please rephrase your query.") := by
    simp [ParsingValidationService.validate_agent_output, hany]
  refine ⟨hval, ?_⟩
  simp only [OrchestratorGraph.run, run_parsing_node, hval]
  simp only [Option.getD_some, Bool.false_eq_true, reduceIte]
  exact Exists.intro _ (And.intro rfl (And.intro rfl (And.intro rfl rfl)))

/-- Witness for C6: a parse producing only an analysis request. -/
theorem c6_empty_parse_terminates_witness :
    ({} : ParsingValidationService).validate_agent_output
        ((fun _ => { questions := [ParsedItem.analysisRequest "why"] }) "") =
      (false, "Sorry, I could not find any valid DataQuestion in your request. Please rephrase your query.") ∧
    ∃ s', OrchestratorGraph.run (fun _ => { questions := [ParsedItem.analysisRequest "why"] })
        {} (fun _ => .ok {}) (fun _ => .ok {}) (fun _ => "[]") (fun _ => "{}")
        1 .run_parsing {} {} = some (.ok (s', {})) ∧
      s'.is_valid = some false ∧
      s'.validation_message =
        some "Sorry, I could not find any valid DataQuestion in your request. Please rephrase your query." ∧
      s'.processed_questions = ({} : AgenticOrchestratorState).processed_questions :=
  c6_empty_parse_terminates (fun _ => { questions := [ParsedItem.analysisRequest "why"] })
    {} (fun _ => .ok {}) (fun _ => .ok {}) (fun _ => "[]") (fun _ => "{}") {} {}
    (by intro q hq; simp at hq; simp [hq, ParsedItem.isDataQuestion])

/-- C8: in both retry sub-workflows the `validation_attempts` counter is
incremented exactly once per failed validation, inside the Validate
stage, and is untouched by the Generate stage and by a successful
validation. SQL: the generate node preserves the counter; the validate
node leaves it unchanged when the validator approves and increments it
by exactly one when it rejects. Chart: the render (generate) node
preserves the counter whenever it returns; the validate node, whenever
it returns, reports success with an unchanged counter or failure with
the counter incremented by exactly one. -/
theorem c8_attempts_counter_discipline
    (g : Option String → String) (v : String → Bool × Option ErrDict)
    (s : DataExtractorState)
    (cg : String → String) (lr : String → Option ChartRespDict)
    (cv : JsonVal → Except String Unit) (j : String → Option JsonVal)
    (cs : ChartingState) :
    ((make_sql_generate_node g s).validation_attempts = s.validation_attempts) ∧
    ((v (s.sql.getD "")).1 = true →
      (make_sql_validate_node v s).validation_attempts = s.validation_attempts) ∧
    ((v (s.sql.getD "")).1 = false →
      (make_sql_validate_node v s).validation_attempts =
        some (s.validation_attempts.getD 0 + 1)) ∧
    (∀ cs', make_render_chart_llm_node_no_validation cg lr cs = .ok cs' →
      cs'.validation_attempts = cs.validation_attempts) ∧
    (∀ cs', make_chart_validate_node cv j cs = .ok cs' →
      (cs'.is_valid = some true ∧ cs'.validation_attempts = cs.validation_attempts) ∨
      (cs'.is_valid = some false ∧ cs'.validation_attempts =
        some (cs.validation_attempts.getD 0 + 1))) := by
  refine ⟨rfl, ?_, ?_, ?_, ?_⟩
  · intro h
    simp [make_sql_validate_node, h]
  · intro h
    simp [make_sql_validate_node, h]
  · intro cs' h
    cases hdq : cs.data_question with
    | none => simp [make_render_chart_llm_node_no_validation, hdq] at h
    | some dq =>
      cases hl : lr (cg (cs.validation_error.getD "None")) with
      | none => simp [make_render_chart_llm_node_no_validation, hdq, hl] at h
      | some d =>
        simp only [make_render_chart_llm_node_no_validation, hdq, hl,
          Except.ok.injEq] at h
        rw [← h]
  · intro cs' h
    cases hfig : cs.plotly_fig_json with
    | none => simp [make_chart_validate_node, hfig] at h
    | some fj =>
      cases fj with
      | dict d =>
        cases hv : cv (.dict d) with
        | ok u =>
          simp only [make_chart_validate_node, hfig, hv, Except.ok.injEq] at h
          rw [← h]
          left
          exact ⟨rfl, rfl⟩
        | error e =>
          simp only [make_chart_validate_node, hfig, hv, Except.ok.injEq] at h
          rw [← h]
          right
          exact ⟨rfl, rfl⟩
      | str str =>
        cases hj : j str with
        | none => simp [make_chart_validate_node, hfig, hj] at h
        | some jv =>
          cases hv : cv jv with
          | ok u =>
            simp only [make_chart_validate_node, hfig, hj, hv, Except.ok.injEq] at h
            rw [← h]
            left
            exact ⟨rfl, rfl⟩
          | error e =>
            simp only [make_chart_validate_node, hfig, hj, hv, Except.ok.injEq] at h
            rw [← h]
            right
            exact ⟨rfl, rfl⟩

/-- Witness for C8 at concrete validators and states. -/
theorem c8_attempts_counter_discipline_witness :
    (make_sql_generate_node (fun _ => "g") {}).validation_attempts = none ∧
    (make_sql_validate_node (fun _ => (true, none)) { sql := some "q" }).validation_attempts = none ∧
    (make_sql_validate_node (fun _ => (false, some ⟨"e"⟩)) { sql := some "q" }).validation_attempts = some 1 ∧
    (∃ cs', make_render_chart_llm_node_no_validation (fun _ => "r") wLoads
        { data_question := some {} } = .ok cs' ∧ cs'.validation_attempts = none) ∧
    (∃ cs', make_chart_validate_node (fun _ => .error "bad") wJsonLoads
        { data_question := some {}, plotly_fig_json := some (.dict ⟨[]⟩) } = .ok cs' ∧
      ((cs'.is_valid = some true ∧ cs'.validation_attempts = none) ∨
       (cs'.is_valid = some false ∧ cs'.validation_attempts = some 1))) := by
  refine ⟨?_, ?_, ?_, ?_, ?_⟩
  · exact (c8_attempts_counter_discipline (fun _ => "g") (fun _ => (true, none)) {}
      (fun _ => "r") wLoads (fun _ => .error "bad") wJsonLoads {}).1
  · exact (c8_attempts_counter_discipline (fun _ => "g") (fun _ => (true, none))
      { sql := some "q" } (fun _ => "r") wLoads (fun _ => .error "bad") wJsonLoads {}).2.1 rfl
  · exact (c8_attempts_counter_discipline (fun _ => "g") (fun _ => (false, some ⟨"e"⟩))
      { sql := some "q" } (fun _ => "r") wLoads (fun _ => .error "bad") wJsonLoads {}).2.2.1 rfl
  · exact ⟨_, rfl, (c8_attempts_counter_discipline (fun _ => "g") (fun _ => (true, none)) {}
      (fun _ => "r") wLoads (fun _ => .error "bad") wJsonLoads
      { data_question := some {} }).2.2.2.1 _ rfl⟩
  · exact ⟨_, rfl, (c8_attempts_counter_discipline (fun _ => "g") (fun _ => (true, none)) {}
      (fun _ => "r") wLoads (fun _ => .error "bad") wJsonLoads
      { data_question := some {}, plotly_fig_json := some (.dict ⟨[]⟩) }).2.2.2.2 _ rfl⟩

/-- A concrete chart validator for witnesses: always raises ValueError. -/
def wCValW : JsonVal → Except String Unit := fun _ => .error "Invalid Plotly figure JSON: no data traces"

/-- C10: the chart Validate stage returns normally exactly when the chart
spec in state is a dict, or a string that `json.loads` parses; on `None`
it raises `TypeError` and on a non-JSON string it raises
`JSONDecodeError` — both from line 43, outside the stage's try block —
so no attempt is counted (no updated state is produced) and the
sub-workflow run aborts with that exception instead of reaching the
conditional terminal routing. -/
theorem c10_chart_validate_raises
    (cv : JsonVal → Except String Unit) (j : String → Option JsonVal)
    (state : ChartingState) :
    ((∃ s', make_chart_validate_node cv j state = .ok s') ↔
      (∃ d, state.plotly_fig_json = some (.dict d)) ∨
      (∃ str jv, state.plotly_fig_json = some (.str str) ∧ j str = some jv)) ∧
    (state.plotly_fig_json = none →
      make_chart_validate_node cv j state =
        .error (.typeError "the JSON object must be str, bytes or bytearray, not NoneType")) ∧
    (∀ str, state.plotly_fig_json = some (.str str) → j str = none →
      make_chart_validate_node cv j state = .error (.jsonDecodeError "Expecting value")) ∧
    (∀ gen loadsResp fuel tr e, make_chart_validate_node cv j state = .error e →
      ChartingGraph.run gen loadsResp (fun _ => cv) j (fuel + 1) .validate_charts state tr =
        some (.error e)) := by
  refine ⟨⟨?_, ?_⟩, ?_, ?_, ?_⟩
  · rintro ⟨s', hs⟩
    cases hfig : state.plotly_fig_json with
    | none => simp [make_chart_validate_node, hfig] at hs
    | some fj =>
      cases fj with
      | dict d => exact Or.inl ⟨d, rfl⟩
      | str str =>
        cases hj : j str with
        | none => simp [make_chart_validate_node, hfig, hj] at hs
        | some jv => exact Or.inr ⟨str, jv, rfl, hj⟩
  · rintro (⟨d, hd⟩ | ⟨str, jv, hstr, hj⟩)
    · cases hv : cv (.dict d) with
      | ok u => exact ⟨_, by simp only [make_chart_validate_node, hd, hv]; rfl⟩
      | error e => exact ⟨_, by simp only [make_chart_validate_node, hd, hv]; rfl⟩
    · cases hv : cv jv with
      | ok u => exact ⟨_, by simp only [make_chart_validate_node, hstr, hj, hv]; rfl⟩
      | error e => exact ⟨_, by simp only [make_chart_validate_node, hstr, hj, hv]; rfl⟩
  · intro h
    simp [make_chart_validate_node, h]
  · intro str hstr hj
    simp [make_chart_validate_node, hstr, hj]
  · intro gen loadsResp fuel tr e h
    simp only [ChartingGraph.run, h]

/-- Witness for C10: exercises the None input and a non-JSON string. -/
theorem c10_chart_validate_raises_witness :
    make_chart_validate_node wCValW wJsonLoads { data_question := some {} } =
      .error (.typeError "the JSON object must be str, bytes or bytearray, not NoneType") ∧
    make_chart_validate_node wCValW wJsonLoads
      { data_question := some {}, plotly_fig_json := some (.str "oops") } =
      .error (.jsonDecodeError "Expecting value") ∧
    ChartingGraph.run wCGen wLoads (fun _ => wCValW) wJsonLoads 1 .validate_charts
      { data_question := some {} } {} =
      some (.error (.typeError "the JSON object must be str, bytes or bytearray, not NoneType")) :=
  ⟨(c10_chart_validate_raises wCValW wJsonLoads { data_question := some {} }).2.1 rfl,
   (c10_chart_validate_raises wCValW wJsonLoads
     { data_question := some {}, plotly_fig_json := some (.str "oops") }).2.2.1 "oops" rfl rfl,
   (c10_chart_validate_raises wCValW wJsonLoads { data_question := some {} }).2.2.2
     wCGen wLoads 0 {} _
     ((c10_chart_validate_raises wCValW wJsonLoads { data_question := some {} }).2.1 rfl)⟩

/-- C3 (code bug): at the failing input — a chart-generation response
that is not valid JSON — the render stage does NOT degrade to a null
chart: the `except json.JSONDecodeError` branch of
nodes/chart_render_node.py sets `plotly_fig_json = None` but never
assigns the local `narrative`, so the `return` line raises
`UnboundLocalError` and the charting sub-workflow invoke aborts with
that exception instead of reaching its terminal routing. (Even if
`narrative` were assigned, the degraded `None` chart spec would crash
the validate stage, cf. the C10 theorem.) -/
theorem c3_render_malformed_raises :
    make_render_chart_llm_node_no_validation (fun _ => "oops") (fun _ => none)
      { data_question := some {} } = .error (.unboundLocalError "narrative") ∧
    ChartingGraph.invoke (fun _ _ => "oops") (fun _ => none) (fun _ _ => .error "x")
      (fun _ => none) {} = some (.error (.unboundLocalError "narrative")) :=
  ⟨rfl, rfl⟩

/-- Concrete oracles for the C4 scenario: SQL validation passes, the MCP
query capability reports a connectivity error. -/
def wMcpFail : String → MCPQueryResp := fun _ => { error := some "connection refused" }

def wRunQFail : String → Except PyErr Frame := DataExtractionService.run_query wMcpFail

def wValOk : Nat → String → Bool × Option ErrDict := fun _ _ => (true, none)

def wExtractorFail : DataQuestion → Except PyErr DataExtractorState := fun dq =>
  invokeState (DataExtractorGraph.invoke wGen wValOk wRunQFail dq)

def wChartOk : DataQuestion → Except PyErr ChartingState := fun dq =>
  invokeState (ChartingGraph.invoke wCGen wLoads (fun _ _ => .ok ()) wJsonLoads dq)

def wSvc : ParsingValidationService := { metrics := ["revenue"], dimensions := ["product"] }

def wDq : String → DataQuestion := fun t =>
  { original_text := t, metrics := ["revenue"], dimensions := ["product"] }

def wParse2 : String → AgentOutput := fun _ =>
  { questions := [.dataQuestion (wDq "a"), .dataQuestion (wDq "b")] }

/-- C4 counterexample: a run with two valid questions where the first
question's query execution fails externally (MCP reports "connection
refused"). The claim predicts a result-level error on that question's
dataset with the run continuing to question 2; instead the full
orchestrator run aborts with the propagated `RuntimeError` and never
produces a terminal state — no question is processed. -/
theorem c4_counterexample :
    OrchestratorGraph.run wParse2 wSvc wExtractorFail wChartOk (fun _ => "[]")
        (fun _ => "{}") 25 .run_parsing { user_query := "q" } {} =
      some (.error (.runtimeError "MCP query error: connection refused")) ∧
    ¬ ∃ s' tr', OrchestratorGraph.run wParse2 wSvc wExtractorFail wChartOk
        (fun _ => "[]") (fun _ => "{}") 25 .run_parsing { user_query := "q" } {} =
      some (.ok (s', tr')) := by
  have heq : OrchestratorGraph.run wParse2 wSvc wExtractorFail wChartOk (fun _ => "[]")
      (fun _ => "{}") 25 .run_parsing { user_query := "q" } {} =
      some (.error (.runtimeError "MCP query error: connection refused")) := rfl
  refine ⟨heq, ?_⟩
  rintro ⟨s', tr', h⟩
  rw [heq] at h
  simp at h

/-- C4 as amended: an external query-execution failure raises
`RuntimeError` inside the extract node; nothing catches it — it
propagates out of the extraction sub-workflow and out of the
orchestrator's RunExtractor step, aborting the whole run with that
exception (it is absorbed only at the top-level app boundary). It is
not recorded as a result-level error on the question's dataset, and the
remaining questions are not processed. -/
theorem c4_query_failure_aborts_run
    (gen : Nat → Option String → String)
    (validator : Nat → String → Bool × Option ErrDict)
    (mcpQuery : String → MCPQueryResp) (emsg : String) (dq : DataQuestion)
    (parse : String → AgentOutput) (svc : ParsingValidationService)
    (chartInvoke : DataQuestion → Except PyErr ChartingState)
    (ser : Frame → String) (dumps : FigDict → String)
    (s : AgenticOrchestratorState) (tr : OrchestratorGraph.Trace) (fuel : Nat)
    (hval : ∀ n q, validator n q = (true, none))
    (hq : ∀ q, mcpQuery q = { error := some emsg })
    (hdq : s.data_question = some dq) :
    DataExtractorGraph.invoke gen validator
        (DataExtractionService.run_query mcpQuery) dq =
      some (.error (.runtimeError s!"MCP query error: {emsg}")) ∧
    OrchestratorGraph.run parse svc
        (fun q => invokeState (DataExtractorGraph.invoke gen validator
          (DataExtractionService.run_query mcpQuery) q))
        chartInvoke ser dumps (fuel + 1) .run_extractor s tr =
      some (.error (.runtimeError s!"MCP query error: {emsg}")) := by
  have hinv : DataExtractorGraph.invoke gen validator
      (DataExtractionService.run_query mcpQuery) dq =
      some (.error (.runtimeError s!"MCP query error: {emsg}")) := by
    simp only [DataExtractorGraph.invoke, DataExtractorGraph.RECURSION_LIMIT,
      DataExtractorGraph.run, make_sql_generate_node, make_sql_validate_node,
      make_sql_extract_node, DataExtractorGraph.is_valid,
      DataExtractionService.run_query, hval, hq,
      Option.getD_some, Option.getD_none, reduceIte, Except.map]
  refine ⟨hinv, ?_⟩
  simp only [OrchestratorGraph.run, run_extractor_node, hdq, hinv,
    invokeState, invokeResult, Option.map, Except.map]

/-- The concrete error text of the failing MCP query used in witnesses. -/
def wEmsg : String := "connection refused"

/-- Witness for the amended C4 at the concrete failing oracles. -/
theorem c4_query_failure_aborts_run_witness :
    DataExtractorGraph.invoke wGen wValOk
        (DataExtractionService.run_query wMcpFail) (wDq "a") =
      some (.error (.runtimeError s!"MCP query error: {wEmsg}")) ∧
    OrchestratorGraph.run wParse2 wSvc
        (fun q => invokeState (DataExtractorGraph.invoke wGen wValOk
          (DataExtractionService.run_query wMcpFail) q))
        wChartOk (fun _ => "[]") (fun _ => "{}") (0 + 1) .run_extractor
        { user_query := "q", data_question := some (wDq "a") } {} =
      some (.error (.runtimeError s!"MCP query error: {wEmsg}")) :=
  c4_query_failure_aborts_run wGen wValOk wMcpFail wEmsg (wDq "a")
    wParse2 wSvc wChartOk (fun _ => "[]") (fun _ => "{}")
    { user_query := "q", data_question := some (wDq "a") } {} 0
    (fun _ _ => rfl) (fun _ => rfl) rfl

/-- C9 counterexample: at the concrete input state whose
`progress_messages` is the list object `["Start processing user query..."]`
(heap cell 0), PickNext appends its two entries to that SHARED object in
place — after the stage the input state's list is no longer
`["Start processing user query..."]`, contradicting the claim that
appended entries appear only in the returned partial update. -/
theorem c9_counterexample :
    ¬ ((pick_next_progress_heap [["Start processing user query..."]] (some 0) 0 1).1.getD 0 [] =
       ["Start processing user query..."]) ∧
    (pick_next_progress_heap [["Start processing user query..."]] (some 0) 0 1).1.getD 0 [] =
      ["Start processing user query...", "Processing question 1 of 1.",
       "Extracting data for question 1 of 1."] := by
  constructor
  · intro h
    have hlen := congrArg List.length h
    simp [pick_next_progress_heap] at hlen
  · rfl

/-- C9 as amended: `pick_next_question_node` and `run_parsing_node`
append their progress entries to the shared `progress_messages` list
object IN PLACE (the input state's list is mutated, and the reference
stored in the returned update is the same object), while
`accumulate_and_advance_node` does copy before appending: it allocates
a fresh list, leaves every pre-existing list object unchanged, and
returns the fresh reference. -/
theorem c9_inplace_append
    (h : StrListHeap) (r : Nat) (i n : Nat)
    (h2 : DqListHeap) (pr : Option Nat) (dq : DataQuestion)
    (hr : r < h.length) :
    ((pick_next_progress_heap h (some r) i n).1.getD r [] =
      h.getD r [] ++ [s!"Processing question {i+1} of {n}.",
                      s!"Extracting data for question {i+1} of {n}."]) ∧
    (pick_next_progress_heap h (some r) i n).2 = r ∧
    ((run_parsing_progress_heap h (some r)).1.getD r [] =
      h.getD r [] ++ ["Parsing completed."]) ∧
    (run_parsing_progress_heap h (some r)).2 = r ∧
    (∀ r2, r2 < h2.length →
      (accumulate_processed_heap h2 pr dq).1.getD r2 [] = h2.getD r2 []) ∧
    (accumulate_processed_heap h2 pr dq).2 = h2.length := by
  refine ⟨?_, rfl, ?_, rfl, ?_, rfl⟩
  · simp [pick_next_progress_heap, List.getD, List.getElem?_set_eq_of_lt, hr]
  · simp [run_parsing_progress_heap, List.getD, List.getElem?_set_eq_of_lt, hr]
  · intro r2 hr2
    simp [accumulate_processed_heap, List.getD, List.getElem?_append, hr2]

/-- Witness for the amended C9 at a concrete one-cell heap. -/
theorem c9_inplace_append_witness :
    ((pick_next_progress_heap [["s"]] (some 0) 0 1).1.getD 0 [] =
      ([["s"]] : StrListHeap).getD 0 [] ++ [s!"Processing question {0+1} of {1}.",
                          s!"Extracting data for question {0+1} of {1}."]) ∧
    (pick_next_progress_heap [["s"]] (some 0) 0 1).2 = 0 ∧
    ((run_parsing_progress_heap [["s"]] (some 0)).1.getD 0 [] =
      ([["s"]] : StrListHeap).getD 0 [] ++ ["Parsing completed."]) ∧
    (run_parsing_progress_heap [["s"]] (some 0)).2 = 0 ∧
    (∀ r2, r2 < ([[]] : DqListHeap).length →
      (accumulate_processed_heap [[]] (some 0) {}).1.getD r2 [] =
        ([[]] : DqListHeap).getD r2 []) ∧
    (accumulate_processed_heap [[]] (some 0) {}).2 = ([[]] : DqListHeap).length :=
  c9_inplace_append [["s"]] 0 0 1 [[]] (some 0) {} (by decide)
